import Mathlib

/-!
Verification model of the product service of the repository
(in-memory variant in `src/unnamed/part_000`, PostgreSQL-backed variant in
`src/services/product-service/server.js`, table schema in
`src/unnamed/part_001`).

Modelling conventions:
* Timestamps are abstracted to a `Nat` clock carried in the store state;
  `CURRENT_TIMESTAMP` / `new Date()` read that clock.
* Prices are `Rat` (the code manipulates them only through order
  comparisons, which any ordered field preserves); stock is `Int`
  (`parseInt` of an integer input is the identity).
* A parsed JSON request body is a record of five optional fields, exactly
  the fields the two handlers destructure.  JavaScript truthiness of the
  relevant values is modelled by `truthyStr` (a string is falsy iff empty)
  and `truthyNum` (a number is falsy iff zero).
* A raw request body is `empty`, a well-formed JSON object, or malformed;
  this mirrors the three behaviours of `JSON.parse` inside `parseBody`.
* The database engine is modelled as reliable: connectivity failures are
  environment nondeterminism outside the model.  The CHECK constraints of
  the `products` table (`price > 0`, `stock >= 0`) and its NOT NULL
  columns are modelled, since statement failure on constraint violation
  is observable behaviour of the service.
-/

/-- A JSON value, as produced by the object literals handed to
`JSON.stringify` in both servers.  Field order of objects is kept. -/
inductive Json where
  | str (s : String)
  | num (q : Rat)
  | jint (n : Int)
  | bool (b : Bool)
  | obj (fields : List (String × Json))
  | arr (elems : List Json)

/-- Field lookup in a JSON object field list (first match). -/
def jget (fs : List (String × Json)) (k : String) : Option Json :=
  (fs.find? (fun kv => kv.1 == k)).map (fun kv => kv.2)

/-- An HTTP response: status code and optional JSON body
(`none` for the bodyless OPTIONS reply). -/
structure Resp where
  status : Nat
  body : Option Json

/-- The request methods the two servers dispatch on. -/
inductive Method where
  | GET | POST | PUT | DELETE | OPTIONS
deriving DecidableEq

/-- The method name echoed into the fallback 404 body (`req.method`). -/
def Method.name : Method → String
  | .GET => "GET"
  | .POST => "POST"
  | .PUT => "PUT"
  | .DELETE => "DELETE"
  | .OPTIONS => "OPTIONS"

/-- A parsed JSON request body: the five fields destructured by the POST
and PUT handlers, each independently present or absent. -/
structure Body where
  name : Option String := none
  description : Option String := none
  price : Option Rat := none
  category : Option String := none
  stock : Option Int := none
deriving DecidableEq

/-- A raw request body before `parseBody`: the empty string, a body that
`JSON.parse` accepts, or text on which `JSON.parse` throws. -/
inductive RawBody where
  | empty
  | json (b : Body)
  | malformed
deriving DecidableEq

/-- `parseBody` of both servers: the empty string is special-cased to the
empty object (`body ? JSON.parse(body) : \x7b\x7d`); otherwise `JSON.parse`
either yields the parsed object or throws (modelled as `none`). -/
def parseBody : RawBody → Option Body
  | .empty => some {}
  | .json b => some b
  | .malformed => none

/-- JavaScript truthiness of an optional string value:
absent and the empty string are falsy. -/
def truthyStr : Option String → Bool
  | none => false
  | some s => !(s == "")

/-- JavaScript truthiness of an optional numeric value:
absent and zero are falsy. -/
def truthyNum : Option Rat → Bool
  | none => false
  | some q => !(q == 0)

/-- `parseInt(stock) || 0` in both create paths: an absent stock becomes 0
(`parseInt(undefined)` is NaN, which is falsy); a supplied integer is kept
(a supplied 0 is falsy but `0 || 0` is still 0). -/
def jsStockDefault : Option Int → Int
  | none => 0
  | some n => n

/-- The filter criteria read from the query string: the three parameters
both list handlers look at.  `category` keeps the raw string (truthiness
distinguishes the empty string); a numeric filter is `some q` exactly when
a truthy (nonempty) numeric parameter string was supplied, `q` being its
`parseFloat` value. -/
structure Filters where
  category : Option String := none
  minPrice : Option Rat := none
  maxPrice : Option Rat := none
deriving DecidableEq

/-- The error envelope `\x7bsuccess: false, error: msg\x7d` that every
explicit error path of both servers serializes. -/
def errJson (msg : String) : Json :=
  Json.obj [("success", Json.bool false), ("error", Json.str msg)]

/-- The fallback body `\x7berror, path, method\x7d` produced by the final
404 branch of both servers.  Note it carries no `success` field. -/
def routeNotFoundJson (path : String) (m : Method) : Json :=
  Json.obj [("error", Json.str "Route not found"),
            ("path", Json.str path), ("method", Json.str m.name)]

/-- Whether an optional response body is a well-formed error envelope:
a JSON object whose `success` field is `false` and whose `error` field is
a string. -/
def isErrEnvelope : Option Json → Bool
  | some (Json.obj fs) =>
      (match jget fs "success" with
       | some (Json.bool false) => true
       | _ => false) &&
      (match jget fs "error" with
       | some (Json.str _) => true
       | _ => false)
  | _ => false

/-- Lower-casing on character lists (`toLowerCase` / SQL `LOWER`,
restricted to the character-wise case mapping). -/
def lowerChars (s : List Char) : List Char := s.map Char.toLower

/-- Character-wise lower-casing of a string. -/
def jsLower (s : String) : String := ⟨lowerChars s.data⟩

/-- Contiguous-substring test on character lists, the semantics of
JavaScript `String.prototype.includes`. -/
def containsSub : List Char → List Char → Bool
  | hay, needle =>
    needle.isPrefixOf hay ||
      match hay with
      | [] => false
      | _ :: t => containsSub t needle

/-- `hay.includes(needle)` for strings. -/
def strIncludes (hay needle : String) : Bool := containsSub hay.data needle.data

/-- Fuelled SQL LIKE matching: percent matches any character sequence,
underscore matches exactly one character, any other pattern character
matches itself.  The fuel only serves structural recursion; it is chosen
large enough in `sqlLike` below. -/
def likeFuel : Nat → List Char → List Char → Bool
  | 0, _, _ => false
  | _ + 1, [], [] => true
  | _ + 1, [], _ :: _ => false
  | f + 1, '%' :: ps, cs =>
      likeFuel f ps cs ||
        (match cs with
         | [] => false
         | _ :: cs2 => likeFuel f ('%' :: ps) cs2)
  | _ + 1, '_' :: _, [] => false
  | f + 1, '_' :: ps, _ :: cs => likeFuel f ps cs
  | _ + 1, _ :: _, [] => false
  | f + 1, p :: ps, c :: cs => (p == c) && likeFuel f ps cs

/-- SQL LIKE matching of a pattern against a string.  Every recursive step
of `likeFuel` shortens the pattern or the string, so this fuel suffices. -/
def sqlLike (pattern s : List Char) : Bool :=
  likeFuel (pattern.length + s.length + 1) pattern s

/-- The LIKE pattern the persisted list operation binds for a category
filter value `c`: the parameter `'%' + c + '%'`. -/
def likePattern (c : String) : List Char := '%' :: (c.data ++ ['%'])

namespace Mem

/-- A product record of the in-memory variant, with exactly the fields of
the object literal at part_000 lines 161-169: note there is a `createdAt`
but no update timestamp. -/
structure MemProduct where
  id : Nat
  name : String
  description : String
  price : Rat
  category : String
  stock : Int
  createdAt : Nat
deriving DecidableEq

/-- JSON serialization of an in-memory product, with the key order of the
object literal. -/
def MemProduct.json (p : MemProduct) : Json :=
  Json.obj [("id", Json.num p.id),
            ("name", Json.str p.name),
            ("description", Json.str p.description),
            ("price", Json.num p.price),
            ("category", Json.str p.category),
            ("stock", Json.jint p.stock),
            ("createdAt", Json.num p.createdAt)]

/-- The in-memory store: the `products` array plus the clock. -/
structure MemState where
  products : List MemProduct
  now : Nat
deriving DecidableEq

/-- The identifier assigned by the in-memory create:
`Math.max(...products.map(p => p.id)) + 1`.  The store starts with three
sample products and the in-memory variant has no delete route, so the
array is never empty on any reachable state and the fold with initial
value 0 agrees with `Math.max` there. -/
def newId (ps : List MemProduct) : Nat := (ps.map (fun p => p.id)).foldl max 0 + 1

/-- The filtering of GET /api/products (part_000 lines 84-104): three
sequential, independently optional filters. -/
def filterProducts (q : Filters) (ps : List MemProduct) : List MemProduct :=
  let ps1 := if truthyStr q.category then
      ps.filter (fun p => strIncludes (jsLower p.category) (jsLower (q.category.getD "")))
    else ps
  let ps2 := match q.minPrice with
    | some lo => ps1.filter (fun p => decide (lo ≤ p.price))
    | none => ps1
  match q.maxPrice with
  | some hi => ps2.filter (fun p => decide (p.price ≤ hi))
  | none => ps2

/-- The in-memory creation (part_000 lines 161-171): build the new record
from the validated body and push it onto the array.  Note no bound check
on price or stock is performed here or in the POST handler. -/
def createProduct (st : MemState) (b : Body) : MemProduct × MemState :=
  let p : MemProduct :=
    { id := newId st.products,
      name := b.name.getD "",
      description := b.description.getD "",
      price := b.price.getD 0,
      category := b.category.getD "",
      stock := jsStockDefault b.stock,
      createdAt := st.now }
  (p, { st with products := st.products ++ [p] })

/-- `products.find(p => p.id === id)`. -/
def getProductById (st : MemState) (id : Nat) : Option MemProduct :=
  st.products.find? (fun p => p.id == id)

/-- The health body of the in-memory variant (part_000 lines 74-79). -/
def healthJson (st : MemState) : Json :=
  Json.obj [("status", Json.str "OK"),
            ("service", Json.str "product-service"),
            ("timestamp", Json.num st.now),
            ("version", Json.str "1.0.0")]

end Mem

/-- The numeric-id route pattern of both servers,
`^/api/products/(\d+)$`: the prefix `/api/products/` followed by one or
more digits, whose `parseInt` value is returned. -/
def parseIdPath (path : String) : Option Nat :=
  let pre : List Char := "/api/products/".data
  if pre.isPrefixOf path.data then
    let rest := path.data.drop pre.length
    if rest ≠ [] ∧ rest.all Char.isDigit then
      some (rest.foldl (fun a c => a * 10 + (c.toNat - 48)) 0)
    else none
  else none

namespace Mem

/-- The POST /api/products handler of the in-memory server (part_000
lines 139-180): parse the body, require truthy name, price and category
(no bound check on price or stock), then store and serve the new record.
-/
def postRoute (st : MemState) (rb : RawBody) : Resp × MemState :=
  match parseBody rb with
  | none => ({ status := 400, body := some (errJson "Invalid JSON") }, st)
  | some b =>
      if !truthyStr b.name || !truthyNum b.price || !truthyStr b.category then
        ({ status := 400,
           body := some (errJson "Name, price, and category are required") }, st)
      else
        let (p, st2) := createProduct st b
        ({ status := 201,
           body := some (Json.obj [("success", Json.bool true),
                                   ("data", p.json)]) }, st2)

/-- The request dispatch of the in-memory server (part_000 lines 52-189),
with the branches in source order: OPTIONS, /health, list, get-by-id,
create, fallback 404.  There is no PUT and no DELETE route. -/
def handle (st : MemState) (m : Method) (path : String) (q : Filters)
    (rb : RawBody) : Resp × MemState :=
  if m = Method.OPTIONS then ({ status := 200, body := none }, st)
  else if path = "/health" then ({ status := 200, body := some (healthJson st) }, st)
  else if path = "/api/products" ∧ m = Method.GET then
    let fp := filterProducts q st.products
    ({ status := 200,
       body := some (Json.obj [("success", Json.bool true),
                               ("count", Json.num fp.length),
                               ("data", Json.arr (fp.map MemProduct.json))]) }, st)
  else match parseIdPath path, m with
    | some id, Method.GET =>
        match getProductById st id with
        | none => ({ status := 404, body := some (errJson "Product not found") }, st)
        | some p =>
            ({ status := 200,
               body := some (Json.obj [("success", Json.bool true),
                                       ("data", p.json)]) }, st)
    | _, _ =>
      if path = "/api/products" ∧ m = Method.POST then postRoute st rb
      else ({ status := 404, body := some (routeNotFoundJson path m) }, st)

end Mem

namespace Pg

/-- A row of the `products` table, with the columns selected by every
query of the service (server.js RETURNING / SELECT lists). -/
structure Row where
  id : Nat
  name : String
  description : String
  price : Rat
  category : String
  stock : Int
  created_at : Nat
  updated_at : Nat
deriving DecidableEq

/-- JSON serialization of a returned row.  The driver hands the row back
with its column names, so the keys are the snake_case column names. -/
def Row.json (r : Row) : Json :=
  Json.obj [("id", Json.num r.id),
            ("name", Json.str r.name),
            ("description", Json.str r.description),
            ("price", Json.num r.price),
            ("category", Json.str r.category),
            ("stock", Json.jint r.stock),
            ("created_at", Json.num r.created_at),
            ("updated_at", Json.num r.updated_at)]

/-- The persisted store: the table rows, the next value of the `id`
SERIAL sequence, and the clock read by CURRENT_TIMESTAMP. -/
structure DbState where
  rows : List Row
  nextId : Nat
  now : Nat
deriving DecidableEq

/-- Well-formedness of the store: every present id is below the sequence
value, which the SERIAL default maintains. -/
def WF (st : DbState) : Prop := ∀ r ∈ st.rows, r.id < st.nextId

/-- The CHECK constraints of the `products` table (part_001 lines 6 and
8): `price > 0` and `stock >= 0`.  A statement that would store a row
violating them fails. -/
def rowOk (r : Row) : Bool := decide (0 < r.price) && decide (0 ≤ r.stock)

/-- Whether a category filter is applied: JavaScript truthiness of
`filters.category`. -/
def catPresent (f : Filters) : Bool := truthyStr f.category

/-- Whether a minimum-price filter is applied (`filters.minPrice`
truthy, see `Filters`). -/
def minPresent (f : Filters) : Bool := f.minPrice.isSome

/-- Whether a maximum-price filter is applied. -/
def maxPresent (f : Filters) : Bool := f.maxPrice.isSome

/-- The WHERE-clause row predicate of the list query built by
`getAllProducts` (server.js lines 41-63): the conjunction of the at most
three appended conditions.  The category condition is
`LOWER(category) LIKE LOWER($k)` with bound parameter
`'%' + filters.category + '%'`, hence SQL LIKE matching of that pattern,
lower-cased on both sides. -/
def matchesFilters (f : Filters) (r : Row) : Bool :=
  (!catPresent f || sqlLike (lowerChars (likePattern (f.category.getD ""))) (lowerChars r.category.data)) &&
  (!minPresent f || decide (f.minPrice.getD 0 ≤ r.price)) &&
  (!maxPresent f || decide (r.price ≤ f.maxPrice.getD 0))

/-- A value bound as a query parameter (never interpolated into the
command text). -/
inductive SqlParam where
  | pstr (s : String)
  | pnum (q : Rat)
  | pint (n : Int)
deriving DecidableEq

/-- The fixed head of the list query template literal (server.js lines
41-46), whitespace included. -/
def listSqlBase : String :=
  "\n      SELECT id, name, description, price, category, stock, \n             created_at, updated_at \n      FROM products \n      WHERE 1=1\n    "

/-- The command text and bound-parameter list built by `getAllProducts`
(server.js lines 41-65).  The source appends each condition and pushes
its parameter in sequence; the placeholder number used at each step is
`params.length + 1` at that point, which is the running count of
previously present filters plus one, as written out here. -/
def getAllProductsSql (f : Filters) : String × List SqlParam :=
  let n1 : Nat := if catPresent f then 1 else 0
  let n2 : Nat := n1 + (if minPresent f then 1 else 0)
  let sql := listSqlBase
    ++ (if catPresent f then " AND LOWER(category) LIKE LOWER($" ++ toString (0 + 1) ++ ")" else "")
    ++ (if minPresent f then " AND price >= $" ++ toString (n1 + 1) else "")
    ++ (if maxPresent f then " AND price <= $" ++ toString (n2 + 1) else "")
    ++ " ORDER BY created_at DESC"
  let params : List SqlParam :=
    (if catPresent f then [SqlParam.pstr ("%" ++ f.category.getD "" ++ "%")] else [])
    ++ (if minPresent f then [SqlParam.pnum (f.minPrice.getD 0)] else [])
    ++ (if maxPresent f then [SqlParam.pnum (f.maxPrice.getD 0)] else [])
  (sql, params)

/-- The denotation of the list query: rows satisfying the WHERE
conjunction, ordered by `created_at DESC`. -/
def getAllProducts (st : DbState) (f : Filters) : List Row :=
  (st.rows.filter (matchesFilters f)).mergeSort
    (fun a b => decide (b.created_at ≤ a.created_at))

/-- `SELECT ... WHERE id = $1` with the primary key: the first (only)
matching row, or null. -/
def getProductById (st : DbState) (id : Nat) : Option Row :=
  st.rows.find? (fun r => r.id == id)

/-- `createProduct` (server.js lines 93-120): INSERT of
`[name, description || two quotes, parseFloat(price), category,
parseInt(stock) || 0]` with both timestamps CURRENT_TIMESTAMP.  A missing
name, price or category makes the statement fail (NOT NULL columns, NaN
price), as does a CHECK-constraint violation; the catch rethrows
"Failed to create product". -/
def createProduct (st : DbState) (b : Body) : Except String Row × DbState :=
  match b.name, b.price, b.category with
  | some nm, some pr, some cat =>
      let r : Row :=
        { id := st.nextId, name := nm, description := b.description.getD "",
          price := pr, category := cat, stock := jsStockDefault b.stock,
          created_at := st.now, updated_at := st.now }
      if rowOk r then
        (Except.ok r, { st with rows := st.rows ++ [r], nextId := st.nextId + 1 })
      else (Except.error "Failed to create product", st)
  | _, _, _ => (Except.error "Failed to create product", st)

/-- Whether the parsed PUT body carries at least one updatable field:
the five `!== undefined` checks of `updateProduct`. -/
def bodyHasField (b : Body) : Bool :=
  b.name.isSome || b.description.isSome || b.price.isSome ||
  b.category.isSome || b.stock.isSome

/-- The row produced by the dynamic UPDATE for the fields present in the
body, with `updated_at = CURRENT_TIMESTAMP`. -/
def applyUpdate (b : Body) (now : Nat) (r : Row) : Row :=
  { r with
    name := b.name.getD r.name,
    description := b.description.getD r.description,
    price := b.price.getD r.price,
    category := b.category.getD r.category,
    stock := b.stock.getD r.stock,
    updated_at := now }

/-- `updateProduct` (server.js lines 122-172).  With no present field it
throws "No fields to update" before touching storage.  Otherwise the
UPDATE runs: no matching id updates nothing and returns null
(`result.rows[0]` undefined); a matching id stores the patched row unless
a CHECK constraint fails, in which case the catch rethrows
"Failed to update product" and the statement leaves the table unchanged.
The id column is the primary key, so at most one row matches. -/
def updateProduct (st : DbState) (id : Nat) (b : Body) :
    Except String (Option Row) × DbState :=
  if !bodyHasField b then (Except.error "No fields to update", st)
  else match st.rows.find? (fun r => r.id == id) with
    | none => (Except.ok none, st)
    | some r =>
        let r2 := applyUpdate b st.now r
        if rowOk r2 then
          (Except.ok (some r2),
           { st with rows := st.rows.map (fun x => if x.id == id then r2 else x) })
        else (Except.error "Failed to update product", st)

/-- The `updates` fragment list built by `updateProduct` (server.js
lines 126-149).  As in `getAllProductsSql`, the placeholder number
`paramCount` at each push equals one plus the number of previously
present fields, written out here as a running count.  The builder below
returns `none` when no field is present (the handler throws before
building any text). -/
def updateFragments (b : Body) : List String :=
  let c1 : Nat := if b.name.isSome then 1 else 0
  let c2 : Nat := c1 + (if b.description.isSome then 1 else 0)
  let c3 : Nat := c2 + (if b.price.isSome then 1 else 0)
  let c4 : Nat := c3 + (if b.category.isSome then 1 else 0)
  (if b.name.isSome then ["name = $" ++ toString (0 + 1)] else [])
  ++ (if b.description.isSome then ["description = $" ++ toString (c1 + 1)] else [])
  ++ (if b.price.isSome then ["price = $" ++ toString (c2 + 1)] else [])
  ++ (if b.category.isSome then ["category = $" ++ toString (c3 + 1)] else [])
  ++ (if b.stock.isSome then ["stock = $" ++ toString (c4 + 1)] else [])

/-- The values pushed alongside those fragments, in the same order. -/
def updateParams (b : Body) : List SqlParam :=
  (if b.name.isSome then [SqlParam.pstr (b.name.getD "")] else [])
  ++ (if b.description.isSome then [SqlParam.pstr (b.description.getD "")] else [])
  ++ (if b.price.isSome then [SqlParam.pnum (b.price.getD 0)] else [])
  ++ (if b.category.isSome then [SqlParam.pstr (b.category.getD "")] else [])
  ++ (if b.stock.isSome then [SqlParam.pint (b.stock.getD 0)] else [])

/-- The final command text and parameter list.  After the five field
checks, `paramCount` in the source equals the number of pushed fragments
plus one, so the WHERE placeholder number is written here as the fragment
count plus one; the target id is pushed as the last parameter. -/
def updateProductSql (id : Nat) (b : Body) : Option (String × List SqlParam) :=
  if (updateFragments b).isEmpty then none
  else
    some ("\n      UPDATE products \n      SET "
      ++ String.intercalate ", " (updateFragments b ++ ["updated_at = CURRENT_TIMESTAMP"])
      ++ "\n      WHERE id = $" ++ toString ((updateFragments b).length + 1)
      ++ "\n      RETURNING id, name, description, price, category, stock, created_at, updated_at\n    ",
      updateParams b ++ [SqlParam.pint (Int.ofNat id)])

/-- `DELETE ... WHERE id = $1 RETURNING ...`: removes the matching row
and returns its snapshot, or null when absent. -/
def deleteProduct (st : DbState) (id : Nat) : Option Row × DbState :=
  match st.rows.find? (fun r => r.id == id) with
  | none => (none, st)
  | some r => (some r, { st with rows := st.rows.filter (fun x => !(x.id == id)) })

/-- One aggregate row of the statistics query (server.js lines 190-211). -/
structure StatRow where
  category : String
  total_products : Nat
  avg_price : Rat
  total_stock : Int
  min_price : Rat
  max_price : Rat
deriving DecidableEq

/-- The statistics query: one aggregate row per distinct category,
ordered by descending product count. -/
def getProductStats (st : DbState) : List StatRow :=
  let cats := (st.rows.map (fun r => r.category)).dedup
  (cats.map (fun c =>
    let group := st.rows.filter (fun r => r.category == c)
    let prices := group.map (fun r => r.price)
    { category := c,
      total_products := group.length,
      avg_price := prices.foldl (· + ·) 0 / (group.length : Rat),
      total_stock := (group.map (fun r => r.stock)).foldl (· + ·) 0,
      min_price := match prices with
        | [] => 0
        | p :: ps => ps.foldl min p,
      max_price := match prices with
        | [] => 0
        | p :: ps => ps.foldl max p })).mergeSort
    (fun a b => decide (b.total_products ≤ a.total_products))

/-- JSON serialization of an aggregate row. -/
def StatRow.json (s : StatRow) : Json :=
  Json.obj [("category", Json.str s.category),
            ("total_products", Json.num s.total_products),
            ("avg_price", Json.num s.avg_price),
            ("total_stock", Json.jint s.total_stock),
            ("min_price", Json.num s.min_price),
            ("max_price", Json.num s.max_price)]

/-- The health body of the persisted variant (server.js lines 236-270) on
the reliable-engine model: status OK with a connected database section.
Server time is the clock; engine version string and pool occupancy
numbers are runtime environment values outside the model. -/
def healthJson (st : DbState) : Json :=
  Json.obj [("status", Json.str "OK"),
            ("service", Json.str "product-service"),
            ("timestamp", Json.num st.now),
            ("version", Json.str "2.0.0"),
            ("database", Json.obj [("status", Json.str "connected"),
                                   ("server_time", Json.num st.now)]),
            ("environment", Json.str "development")]

/-- The POST /api/products handler (server.js lines 320-368): parse the
body, require truthy name, price and category, reject non-positive price,
then delegate to `createProduct`, mapping its failure message onto a 400
envelope. -/
def postProduct (st : DbState) (rb : RawBody) : Resp × DbState :=
  match parseBody rb with
  | none => ({ status := 400, body := some (errJson "Invalid JSON") }, st)
  | some b =>
      if !truthyStr b.name || !truthyNum b.price || !truthyStr b.category then
        ({ status := 400,
           body := some (errJson "Name, price, and category are required") }, st)
      else if decide (b.price.getD 0 ≤ 0) then
        ({ status := 400, body := some (errJson "Price must be greater than 0") }, st)
      else match createProduct st b with
        | (Except.ok r, st2) =>
            ({ status := 201,
               body := some (Json.obj [("success", Json.bool true),
                                       ("data", r.json)]) }, st2)
        | (Except.error m, st2) => ({ status := 400, body := some (errJson m) }, st2)

/-- The PUT price guard (server.js line 385): `body.price && body.price
<= 0`, that is, a present, truthy (nonzero) price that is non-positive;
a supplied price of exactly 0 is falsy and slips past this guard. -/
def putPriceBad (b : Body) : Bool :=
  match b.price with
  | some p => !(p == 0) && decide (p ≤ 0)
  | none => false

/-- The PUT /api/products/:id handler (server.js lines 371-419). -/
def putProduct (st : DbState) (id : Nat) (rb : RawBody) : Resp × DbState :=
  match parseBody rb with
  | none => ({ status := 400, body := some (errJson "Invalid JSON") }, st)
  | some b =>
      if putPriceBad b then
        ({ status := 400, body := some (errJson "Price must be greater than 0") }, st)
      else match updateProduct st id b with
        | (Except.ok none, st2) =>
            ({ status := 404, body := some (errJson "Product not found") }, st2)
        | (Except.ok (some r), st2) =>
            ({ status := 200,
               body := some (Json.obj [("success", Json.bool true),
                                       ("data", r.json)]) }, st2)
        | (Except.error m, st2) => ({ status := 400, body := some (errJson m) }, st2)

/-- The DELETE /api/products/:id handler (server.js lines 422-451). -/
def deleteProductRoute (st : DbState) (id : Nat) : Resp × DbState :=
  match deleteProduct st id with
  | (none, st2) => ({ status := 404, body := some (errJson "Product not found") }, st2)
  | (some r, st2) =>
      ({ status := 200,
         body := some (Json.obj [("success", Json.bool true),
                                 ("message", Json.str "Product deleted successfully"),
                                 ("data", r.json)]) }, st2)

/-- The request dispatch of the persisted server (server.js lines
215-459), with the branches in source order: OPTIONS, /health, stats,
list, get-by-id, create, update, delete, fallback 404. -/
def handle (st : DbState) (m : Method) (path : String) (q : Filters)
    (rb : RawBody) : Resp × DbState :=
  if m = Method.OPTIONS then ({ status := 200, body := none }, st)
  else if path = "/health" then ({ status := 200, body := some (healthJson st) }, st)
  else if path = "/api/products/stats" ∧ m = Method.GET then
    ({ status := 200,
       body := some (Json.obj [("success", Json.bool true),
                               ("data", Json.arr ((getProductStats st).map StatRow.json))]) }, st)
  else if path = "/api/products" ∧ m = Method.GET then
    let rows := getAllProducts st q
    ({ status := 200,
       body := some (Json.obj [("success", Json.bool true),
                               ("count", Json.num rows.length),
                               ("data", Json.arr (rows.map Row.json))]) }, st)
  else match parseIdPath path, m with
    | some id, Method.GET =>
        match getProductById st id with
        | none => ({ status := 404, body := some (errJson "Product not found") }, st)
        | some r =>
            ({ status := 200,
               body := some (Json.obj [("success", Json.bool true),
                                       ("data", r.json)]) }, st)
    | _, _ =>
      if path = "/api/products" ∧ m = Method.POST then postProduct st rb
      else match parseIdPath path, m with
        | some id, Method.PUT => putProduct st id rb
        | some id, Method.DELETE => deleteProductRoute st id
        | _, _ => ({ status := 404, body := some (routeNotFoundJson path m) }, st)

end Pg

/-- The `data` field of a response body, projected to one of its keys
(used to inspect which keys a served record carries). -/
def respDataField (r : Resp) (k : String) : Option Json :=
  match r.body with
  | some (Json.obj fs) =>
      match jget fs "data" with
      | some (Json.obj ds) => jget ds k
      | _ => none
  | _ => none

/-- A sample persisted row used by concrete counterexamples and
witnesses. -/
def pgRow1 : Pg.Row :=
  { id := 1, name := "Widget", description := "d", price := 10,
    category := "abc", stock := 5, created_at := 0, updated_at := 0 }

/-- A sample persisted store holding `pgRow1`. -/
def pgSt1 : Pg.DbState := { rows := [pgRow1], nextId := 2, now := 3 }

/-- A sample in-memory product. -/
def memP1 : Mem.MemProduct :=
  { id := 1, name := "P", description := "", price := 10,
    category := "Audio", stock := 2, createdAt := 0 }

/-- A sample in-memory store holding `memP1`. -/
def memSt1 : Mem.MemState := { products := [memP1], now := 5 }

/-- A creation body whose price and stock violate the product bounds. -/
def badBody : Body :=
  { name := some "Bad", price := some (-5), category := some "C", stock := some (-3) }

/-- A valid creation body (required fields present, positive price). -/
def okBody : Body :=
  { name := some "Mouse", price := some 20, category := some "Accessories" }

/-- Whether a body supplies a price or stock value violating the product
bounds (price > 0, stock >= 0). -/
def violatesBounds (b : Body) : Bool :=
  (match b.price with | some p => decide (p ≤ 0) | none => false) ||
  (match b.stock with | some n => decide (n < 0) | none => false)

/-- The row the persisted create stores for `okBody` on `pgSt1`. -/
def c1newRow : Pg.Row :=
  { id := 2, name := "Mouse", description := "", price := 20,
    category := "Accessories", stock := 0, created_at := 3, updated_at := 3 }

/-- The store after that create. -/
def c1newSt : Pg.DbState := { rows := [pgRow1, c1newRow], nextId := 3, now := 3 }

/-- A creation body with price exactly 0 and the other required fields
present. -/
def mouse0 : Body :=
  { name := some "Mouse", price := some 0, category := some "Accessories" }

/-- A partial update body renaming the sample row. -/
def c5body : Body := { name := some "Gadget" }

/-- The row produced by applying `c5body` to `pgRow1` at clock 3. -/
def c5row : Pg.Row :=
  { id := 1, name := "Gadget", description := "d", price := 10,
    category := "abc", stock := 5, created_at := 0, updated_at := 3 }

/-- The store after that update. -/
def c5st : Pg.DbState := { rows := [c5row], nextId := 2, now := 3 }

/-- A PUT body supplying price exactly 0. -/
def priceZeroBody : Body := { price := some 0 }

/-- Which of the three list filters are present (the only information the
command-text builder may depend on). -/
def listPresence (f : Filters) : Bool × Bool × Bool :=
  (Pg.catPresent f, Pg.minPresent f, Pg.maxPresent f)

/-- Which of the five updatable fields are present in an update body. -/
def updatePresence (b : Body) : Bool × Bool × Bool × Bool × Bool :=
  (b.name.isSome, b.description.isSome, b.price.isSome, b.category.isSome, b.stock.isSome)

/-- Filters with category and minimum price present. -/
def c8f1 : Filters := { category := some "au", minPrice := some 50 }

/-- Filters with the same presence pattern but different values. -/
def c8f2 : Filters := { category := some "ELSE", minPrice := some 7 }

/-- An update body touching name and stock. -/
def c8b1 : Body := { name := some "A", stock := some 3 }

/-- An update body with the same presence pattern but different values. -/
def c8b2 : Body := { name := some "totally different", stock := some 99 }

/-- An accumulator below a `max` fold is below its result. -/
theorem le_foldl_max (l : List Nat) (a : Nat) : a ≤ l.foldl max a := by
  induction l generalizing a with
  | nil => exact Nat.le_refl a
  | cons h t ih => exact Nat.le_trans (Nat.le_max_left a h) (ih (max a h))

/-- Every member of a list is below a `max` fold over it. -/
theorem mem_le_foldl_max {x : Nat} {l : List Nat} (a : Nat) (hx : x ∈ l) :
    x ≤ l.foldl max a := by
  induction l generalizing a with
  | nil => cases hx
  | cons h t ih =>
    cases hx with
    | head => exact Nat.le_trans (Nat.le_max_right a x) (le_foldl_max t (max a x))
    | tail _ hmem => exact ih (max a h) hmem

/-- `find?` over an appended singleton whose element alone satisfies the
predicate. -/
theorem find_append_last {α : Type} (p : α → Bool) (l : List α) (x : α)
    (h : ∀ y ∈ l, p y = false) (hx : p x = true) :
    (l ++ [x]).find? p = some x := by
  rw [List.find?_append]
  have hnone : l.find? p = none := List.find?_eq_none.2 (fun y hy => by
    simp [h y hy])
  rw [hnone]
  simp [List.find?, hx]

/-- C1, counterexample.  The claim asserts that in both variants every
creation input violating price > 0 or stock >= 0 is rejected.  In the
in-memory variant a POST with price -5 and stock -3 passes validation
(the handler only checks truthiness of name, price and category) and is
stored: the response is 201 and the store now holds a product with
negative price and negative stock. -/
theorem C1_counterexample :
    (Mem.handle memSt1 Method.POST "/api/products" {} (RawBody.json badBody)).1.status = 201 ∧
    ∃ p ∈ (Mem.handle memSt1 Method.POST "/api/products" {} (RawBody.json badBody)).2.products,
      p.price < 0 ∧ p.stock < 0 := by
  decide

/-- C1, amended: in the persisted variant every successful create or
update yields a row with price > 0 and stock >= 0, and a creation or
update input supplying a non-positive price or negative stock fails with
an error (by validation or by the table CHECK constraints) leaving the
store unchanged — never silently clamped; the in-memory variant does not
enforce the bounds (see the counterexample), and it has no update
operation. -/
theorem C1_persisted_bounds (st : Pg.DbState) (b : Body) (id : Nat)
    (r : Pg.Row) (st' : Pg.DbState) :
    (Pg.createProduct st b = (Except.ok r, st') → 0 < r.price ∧ 0 ≤ r.stock)
  ∧ (Pg.updateProduct st id b = (Except.ok (some r), st') → 0 < r.price ∧ 0 ≤ r.stock)
  ∧ (violatesBounds b = true →
       (∃ m, Pg.createProduct st b = (Except.error m, st))
     ∧ ((Pg.getProductById st id).isSome →
          ∃ m, Pg.updateProduct st id b = (Except.error m, st))) := by
  refine ⟨?_, ?_, ?_⟩
  · intro h
    unfold Pg.createProduct at h
    split at h
    · rename_i nm pr cat hn hp hc
      dsimp only at h
      split at h
      · rename_i hok
        rw [Prod.mk.injEq] at h
        obtain ⟨h1, -⟩ := h
        rw [Except.ok.injEq] at h1
        subst h1
        rw [Pg.rowOk, Bool.and_eq_true, decide_eq_true_iff, decide_eq_true_iff] at hok
        exact hok
      · simp at h
    · simp at h
  · intro h
    unfold Pg.updateProduct at h
    split at h
    · simp at h
    · split at h
      · simp at h
      · rename_i prev hfind
        dsimp only at h
        split at h
        · rename_i hok
          rw [Prod.mk.injEq] at h
          obtain ⟨h1, -⟩ := h
          rw [Except.ok.injEq, Option.some.injEq] at h1
          subst h1
          rw [Pg.rowOk, Bool.and_eq_true, decide_eq_true_iff, decide_eq_true_iff] at hok
          exact hok
        · simp at h
  · intro hv
    unfold violatesBounds at hv
    rw [Bool.or_eq_true] at hv
    have hbf : Pg.bodyHasField b = true := by
      rcases hv with hP | hS
      · cases hp : b.price with
        | none => rw [hp] at hP; simp at hP
        | some p => simp [Pg.bodyHasField, hp]
      · cases hs : b.stock with
        | none => rw [hs] at hS; simp at hS
        | some n => simp [Pg.bodyHasField, hs]
    constructor
    · unfold Pg.createProduct
      split
      · rename_i nm pr cat hn hp hc
        dsimp only
        have hok : Pg.rowOk
            { id := st.nextId, name := nm, description := b.description.getD "",
              price := pr, category := cat, stock := jsStockDefault b.stock,
              created_at := st.now, updated_at := st.now } = false := by
          rcases hv with hP | hS
          · rw [hp] at hP
            rw [decide_eq_true_iff] at hP
            have hfls : decide ((0 : Rat) < pr) = false := decide_eq_false (not_lt.2 hP)
            simp [Pg.rowOk, hfls]
          · cases hs : b.stock with
            | none => rw [hs] at hS; simp at hS
            | some n =>
              rw [hs] at hS
              rw [decide_eq_true_iff] at hS
              have hfls : decide ((0 : Int) ≤ n) = false := decide_eq_false (not_le.2 hS)
              simp [Pg.rowOk, hs, jsStockDefault, hfls]
        rw [hok]
        exact ⟨_, rfl⟩
      · exact ⟨_, rfl⟩
    · intro hsome
      obtain ⟨prev, hfind⟩ := Option.isSome_iff_exists.1 hsome
      unfold Pg.getProductById at hfind
      unfold Pg.updateProduct
      rw [hbf]
      simp only [Bool.not_true, Bool.false_eq_true, if_false, hfind]
      have hok : Pg.rowOk (Pg.applyUpdate b st.now prev) = false := by
        rcases hv with hP | hS
        · cases hp : b.price with
          | none => rw [hp] at hP; simp at hP
          | some p =>
            rw [hp] at hP
            rw [decide_eq_true_iff] at hP
            have hfls : decide ((0 : Rat) < p) = false := decide_eq_false (not_lt.2 hP)
            simp [Pg.rowOk, Pg.applyUpdate, hp, hfls]
        · cases hs : b.stock with
          | none => rw [hs] at hS; simp at hS
          | some n =>
            rw [hs] at hS
            rw [decide_eq_true_iff] at hS
            have hfls : decide ((0 : Int) ≤ n) = false := decide_eq_false (not_le.2 hS)
            simp [Pg.rowOk, Pg.applyUpdate, hs, hfls]
      rw [hok]
      exact ⟨_, rfl⟩

/-- C1, witness: the amended theorem applied at a concrete successful
create and at a concrete bounds-violating body. -/
theorem C1_persisted_bounds_witness :
    ((0 : Rat) < c1newRow.price ∧ (0 : Int) ≤ c1newRow.stock)
  ∧ (∃ m, Pg.createProduct pgSt1 badBody = (Except.error m, pgSt1)) :=
  ⟨(C1_persisted_bounds pgSt1 okBody 1 c1newRow c1newSt).1 rfl,
   ((C1_persisted_bounds pgSt1 badBody 1 c1newRow c1newSt).2.2 (by decide)).1⟩

/-- C2, counterexample.  The claim quotes the failure message as
"no fields to update"; the message the code throws is capitalized
"No fields to update", a different string. -/
theorem C2_counterexample :
    (Pg.updateProduct pgSt1 1 {}).1 = Except.error "No fields to update" ∧
    "No fields to update" ≠ "no fields to update" :=
  ⟨rfl, by decide⟩

/-- C2, amended: an update whose partial input contains none of the five
updatable fields fails with the error message "No fields to update"
(capitalized) and leaves the store unchanged. -/
theorem C2_empty_update (st : Pg.DbState) (id : Nat) (b : Body)
    (h : b.name = none ∧ b.description = none ∧ b.price = none ∧
         b.category = none ∧ b.stock = none) :
    Pg.updateProduct st id b = (Except.error "No fields to update", st) := by
  obtain ⟨h1, h2, h3, h4, h5⟩ := h
  unfold Pg.updateProduct Pg.bodyHasField
  rw [h1, h2, h3, h4, h5]
  rfl

/-- C2, witness: the amended theorem applied to the empty body on the
sample store. -/
theorem C2_empty_update_witness :
    Pg.updateProduct pgSt1 1 {} = (Except.error "No fields to update", pgSt1) :=
  C2_empty_update pgSt1 1 {} ⟨rfl, rfl, rfl, rfl, rfl⟩

/-- C3, counterexample.  The claim asserts a POST with price 0 yields the
envelope error "Price must be greater than 0".  Price 0 is falsy in
JavaScript, so the required-fields check `!name || !price || !category`
fires first and the served error is "Name, price, and category are
required" (status 400, no record created) in both variants. -/
theorem C3_counterexample :
    (Pg.handle pgSt1 Method.POST "/api/products" {} (RawBody.json mouse0)).1 =
      { status := 400, body := some (errJson "Name, price, and category are required") } ∧
    (Mem.handle memSt1 Method.POST "/api/products" {} (RawBody.json mouse0)).1 =
      { status := 400, body := some (errJson "Name, price, and category are required") } ∧
    "Name, price, and category are required" ≠ "Price must be greater than 0" :=
  ⟨rfl, rfl, by decide⟩

/-- C3, amended: a POST to /api/products whose body has price 0 returns
status 400 with envelope error "Name, price, and category are required"
(price 0 being falsy, the required-fields check intercepts it before the
dedicated positive-price check) and creates no record, in both variants.
-/
theorem C3_price_zero (st : Pg.DbState) (mst : Mem.MemState) (q : Filters)
    (b : Body) (hp : b.price = some 0) :
    Pg.handle st Method.POST "/api/products" q (RawBody.json b) =
      ({ status := 400, body := some (errJson "Name, price, and category are required") }, st)
  ∧ Mem.handle mst Method.POST "/api/products" q (RawBody.json b) =
      ({ status := 400, body := some (errJson "Name, price, and category are required") }, mst) := by
  constructor
  · show Pg.postProduct st (RawBody.json b) = _
    unfold Pg.postProduct
    simp [parseBody, truthyNum, hp]
  · show Mem.postRoute mst (RawBody.json b) = _
    unfold Mem.postRoute
    simp [parseBody, truthyNum, hp]

/-- C3, witness: the amended theorem applied to the concrete price-0
body on the sample stores. -/
theorem C3_price_zero_witness :
    Pg.handle pgSt1 Method.POST "/api/products" {} (RawBody.json mouse0) =
      ({ status := 400, body := some (errJson "Name, price, and category are required") }, pgSt1) :=
  (C3_price_zero pgSt1 memSt1 {} mouse0 rfl).1

/-- C4, counterexample.  The claim asserts both timestamps are present in
the created record in both variants.  The in-memory created record (and
hence the served `data` object) has a `createdAt` key but no `updatedAt`
key at all. -/
theorem C4_counterexample :
    (Mem.handle memSt1 Method.POST "/api/products" {} (RawBody.json okBody)).1.status = 201 ∧
    (respDataField (Mem.handle memSt1 Method.POST "/api/products" {} (RawBody.json okBody)).1
      "createdAt").isSome = true ∧
    respDataField (Mem.handle memSt1 Method.POST "/api/products" {} (RawBody.json okBody)).1
      "updatedAt" = none :=
  ⟨rfl, rfl, rfl⟩

/-- C4, amended: creating a product and then fetching it by the returned
id yields the very record created, in both variants; in the persisted
variant the created row carries both timestamps and its creation
timestamp equals its update timestamp, while the in-memory created record
carries only a creation timestamp (no update-timestamp field, see the
counterexample). -/
theorem C4_roundtrip (st : Pg.DbState) (b : Body) (r : Pg.Row) (st' : Pg.DbState)
    (hwf : Pg.WF st) (h : Pg.createProduct st b = (Except.ok r, st'))
    (mst : Mem.MemState) (mb : Body) :
    (Pg.getProductById st' r.id = some r ∧ r.created_at = r.updated_at)
  ∧ Mem.getProductById (Mem.createProduct mst mb).2 (Mem.createProduct mst mb).1.id
      = some (Mem.createProduct mst mb).1 := by
  constructor
  · unfold Pg.createProduct at h
    split at h
    · rename_i nm pr cat hn hp hc
      dsimp only at h
      split at h
      · rename_i hok
        rw [Prod.mk.injEq] at h
        obtain ⟨h1, h2⟩ := h
        rw [Except.ok.injEq] at h1
        subst h1
        subst h2
        constructor
        · unfold Pg.getProductById
          dsimp only
          apply find_append_last
          · intro y hy
            have hlt : y.id < st.nextId := hwf y hy
            simp [Nat.ne_of_lt hlt]
          · simp
        · rfl
      · simp at h
    · simp at h
  · unfold Mem.getProductById Mem.createProduct
    dsimp only
    apply find_append_last
    · intro y hy
      have hle : y.id ≤ (mst.products.map (fun p => p.id)).foldl max 0 :=
        mem_le_foldl_max 0 (List.mem_map_of_mem _ hy)
      have hne : y.id ≠ Mem.newId mst.products := by
        unfold Mem.newId
        omega
      simp [Mem.newId] at hne ⊢
      omega
    · simp

/-- C4, witness: the amended theorem at a concrete create on both sample
stores. -/
theorem C4_roundtrip_witness :
    (Pg.getProductById c1newSt c1newRow.id = some c1newRow ∧
     c1newRow.created_at = c1newRow.updated_at)
  ∧ Mem.getProductById (Mem.createProduct memSt1 okBody).2
      (Mem.createProduct memSt1 okBody).1.id = some (Mem.createProduct memSt1 okBody).1 :=
  C4_roundtrip pgSt1 okBody c1newRow c1newSt (by unfold Pg.WF; decide) rfl memSt1 okBody

/-- C5: for every successful update with a non-empty partial input, each
field not present in the partial input keeps its previous value, the id
and creation timestamp are unchanged, and the update timestamp is
refreshed to the current clock. -/
theorem C5_update_frame (st : Pg.DbState) (id : Nat) (b : Body) (r prev : Pg.Row)
    (st' : Pg.DbState)
    (hprev : Pg.getProductById st id = some prev)
    (h : Pg.updateProduct st id b = (Except.ok (some r), st')) :
    (b.name = none → r.name = prev.name) ∧
    (b.description = none → r.description = prev.description) ∧
    (b.price = none → r.price = prev.price) ∧
    (b.category = none → r.category = prev.category) ∧
    (b.stock = none → r.stock = prev.stock) ∧
    r.id = prev.id ∧ r.created_at = prev.created_at ∧ r.updated_at = st.now := by
  unfold Pg.getProductById at hprev
  unfold Pg.updateProduct at h
  split at h
  · simp at h
  · rw [hprev] at h
    dsimp only at h
    split at h
    · rename_i hok
      rw [Prod.mk.injEq] at h
      obtain ⟨h1, -⟩ := h
      rw [Except.ok.injEq, Option.some.injEq] at h1
      subst h1
      refine ⟨?_, ?_, ?_, ?_, ?_, rfl, rfl, rfl⟩
      all_goals intro hnone
      all_goals simp [Pg.applyUpdate, hnone]
    · simp at h

/-- C5, witness: the frame theorem at a concrete one-field update of the
sample store. -/
theorem C5_update_frame_witness :
    (c5body.name = none → c5row.name = pgRow1.name) ∧
    (c5body.description = none → c5row.description = pgRow1.description) ∧
    (c5body.price = none → c5row.price = pgRow1.price) ∧
    (c5body.category = none → c5row.category = pgRow1.category) ∧
    (c5body.stock = none → c5row.stock = pgRow1.stock) ∧
    c5row.id = pgRow1.id ∧ c5row.created_at = pgRow1.created_at ∧
    c5row.updated_at = pgSt1.now :=
  C5_update_frame pgSt1 1 c5body c5row pgRow1 c5st rfl rfl

/-- C6, counterexample.  The claim asserts every product returned under a
category filter has the filter as a case-insensitive substring of its
category, in both variants.  In the persisted variant the filter value is
embedded in a LIKE pattern without escaping, so "_" and "%" act as
wildcards: with filter "a_c" the row with category "abc" is returned,
although "abc" does not contain "a_c" as a substring. -/
theorem C6_counterexample :
    pgRow1 ∈ Pg.getAllProducts pgSt1 { category := some "a_c" } ∧
    strIncludes (jsLower pgRow1.category) (jsLower "a_c") = false := by
  constructor
  · exact List.mem_mergeSort.2 (by decide)
  · rfl

/-- C6, amended: filters combine conjunctively in both variants, with an
absent filter imposing no constraint; the in-memory variant matches the
category filter as a case-insensitive substring, while the persisted
variant matches it as a case-insensitive SQL LIKE pattern (the unescaped
filter value between two percent signs), in which "%" and "_" act as
wildcards — the substring reading of the claim only holds there for
filters without LIKE metacharacters. -/
theorem C6_filter_conjunctive (st : Pg.DbState) (f : Filters) (r : Pg.Row)
    (mq : Filters) (ps : List Mem.MemProduct) (p : Mem.MemProduct) :
    (r ∈ Pg.getAllProducts st f ↔ r ∈ st.rows
       ∧ (Pg.catPresent f = true →
            sqlLike (lowerChars (likePattern (f.category.getD "")))
              (lowerChars r.category.data) = true)
       ∧ (Pg.minPresent f = true → f.minPrice.getD 0 ≤ r.price)
       ∧ (Pg.maxPresent f = true → r.price ≤ f.maxPrice.getD 0))
  ∧ (p ∈ Mem.filterProducts mq ps ↔ p ∈ ps
       ∧ (truthyStr mq.category = true →
            strIncludes (jsLower p.category) (jsLower (mq.category.getD "")) = true)
       ∧ (∀ lo, mq.minPrice = some lo → lo ≤ p.price)
       ∧ (∀ hi, mq.maxPrice = some hi → p.price ≤ hi)) := by
  constructor
  · rw [Pg.getAllProducts, List.mem_mergeSort, List.mem_filter]
    unfold Pg.matchesFilters
    constructor
    · rintro ⟨hmem, hcond⟩
      rw [Bool.and_eq_true, Bool.and_eq_true] at hcond
      obtain ⟨⟨hcat, hmin⟩, hmax⟩ := hcond
      refine ⟨hmem, ?_, ?_, ?_⟩
      · intro hc
        rcases Bool.or_eq_true _ _ ▸ hcat with hfls | hok
        · rw [hc] at hfls; simp at hfls
        · exact hok
      · intro hc
        rcases Bool.or_eq_true _ _ ▸ hmin with hfls | hok
        · rw [hc] at hfls; simp at hfls
        · exact decide_eq_true_iff.1 hok
      · intro hc
        rcases Bool.or_eq_true _ _ ▸ hmax with hfls | hok
        · rw [hc] at hfls; simp at hfls
        · exact decide_eq_true_iff.1 hok
    · rintro ⟨hmem, hcat, hmin, hmax⟩
      refine ⟨hmem, ?_⟩
      rw [Bool.and_eq_true, Bool.and_eq_true]
      refine ⟨⟨?_, ?_⟩, ?_⟩
      · cases hc : Pg.catPresent f with
        | false => simp
        | true => simp [hcat hc]
      · cases hc : Pg.minPresent f with
        | false => simp
        | true => simp [hmin hc]
      · cases hc : Pg.maxPresent f with
        | false => simp
        | true => simp [hmax hc]
  · unfold Mem.filterProducts
    cases hc : truthyStr mq.category with
    | false =>
      cases hmin : mq.minPrice with
      | none =>
        cases hmax : mq.maxPrice with
        | none => simp [hc, hmin, hmax]
        | some hi => simp [hc, hmin, hmax, List.mem_filter]
      | some lo =>
        cases hmax : mq.maxPrice with
        | none => simp [hc, hmin, hmax, List.mem_filter, and_assoc]
        | some hi => simp [hc, hmin, hmax, List.mem_filter, and_assoc]; tauto
    | true =>
      cases hmin : mq.minPrice with
      | none =>
        cases hmax : mq.maxPrice with
        | none => simp [hc, hmin, hmax, List.mem_filter]
        | some hi => simp [hc, hmin, hmax, List.mem_filter, and_assoc]; tauto
      | some lo =>
        cases hmax : mq.maxPrice with
        | none => simp [hc, hmin, hmax, List.mem_filter, and_assoc]; tauto
        | some hi => simp [hc, hmin, hmax, List.mem_filter, and_assoc]; tauto

/-- C7: a PUT whose body supplies a price ≤ 0 for an existing product is
answered with status 400 and the store is left unchanged.  A negative
price is rejected by the handler guard; a price of exactly 0 is falsy and
slips past the guard, but the UPDATE then fails on the table CHECK
constraint, which also yields a 400 envelope and no state change. -/
theorem C7_put_nonpositive_price (st : Pg.DbState) (id : Nat) (b : Body)
    (p : Rat) (prev : Pg.Row)
    (hprev : Pg.getProductById st id = some prev)
    (hp : b.price = some p) (hle : p ≤ 0) :
    (Pg.putProduct st id (RawBody.json b)).1.status = 400 ∧
    (Pg.putProduct st id (RawBody.json b)).2 = st := by
  unfold Pg.getProductById at hprev
  unfold Pg.putProduct
  by_cases h0 : p = 0
  · subst h0
    have hbad : Pg.putPriceBad b = false := by
      simp [Pg.putPriceBad, hp]
    have hbf : Pg.bodyHasField b = true := by
      simp [Pg.bodyHasField, hp]
    have hok : Pg.rowOk (Pg.applyUpdate b st.now prev) = false := by
      simp [Pg.rowOk, Pg.applyUpdate, hp]
    have hupd : Pg.updateProduct st id b = (Except.error "Failed to update product", st) := by
      unfold Pg.updateProduct
      rw [hbf]
      simp only [Bool.not_true, Bool.false_eq_true, if_false, hprev]
      rw [hok]
      rfl
    simp [parseBody, hbad, hupd]
  · have hbad : Pg.putPriceBad b = true := by
      simp [Pg.putPriceBad, hp, h0, hle]
    simp [parseBody, hbad]

/-- C7, witness: the theorem at a concrete zero-price PUT against the
sample store. -/
theorem C7_put_nonpositive_price_witness :
    (Pg.putProduct pgSt1 1 (RawBody.json priceZeroBody)).1.status = 400 ∧
    (Pg.putProduct pgSt1 1 (RawBody.json priceZeroBody)).2 = pgSt1 :=
  C7_put_nonpositive_price pgSt1 1 priceZeroBody 0 pgRow1 rfl rfl (by decide)

/-- C8: the SQL command text built by the list and the update operation
depends only on which filter or update fields are present, never on the
field values: two inputs with the same presence pattern yield the same
command string, every value travelling only in the bound-parameter list
(`getAllProductsSql` and `updateProductSql` place values exclusively in
their `SqlParam` component). -/
theorem C8_sql_presence_only (f1 f2 : Filters) (id1 id2 : Nat) (b1 b2 : Body)
    (hf : listPresence f1 = listPresence f2)
    (hb : updatePresence b1 = updatePresence b2) :
    (Pg.getAllProductsSql f1).1 = (Pg.getAllProductsSql f2).1 ∧
    (Pg.updateProductSql id1 b1).map Prod.fst = (Pg.updateProductSql id2 b2).map Prod.fst := by
  unfold listPresence at hf
  rw [Prod.mk.injEq, Prod.mk.injEq] at hf
  obtain ⟨h1, h2, h3⟩ := hf
  unfold updatePresence at hb
  rw [Prod.mk.injEq, Prod.mk.injEq, Prod.mk.injEq, Prod.mk.injEq] at hb
  obtain ⟨g1, g2, g3, g4, g5⟩ := hb
  have hfr : Pg.updateFragments b1 = Pg.updateFragments b2 := by
    unfold Pg.updateFragments
    rw [g1, g2, g3, g4, g5]
  constructor
  · unfold Pg.getAllProductsSql
    dsimp only
    rw [h1, h2, h3]
  · unfold Pg.updateProductSql
    rw [hfr]
    by_cases hu : (Pg.updateFragments b2).isEmpty
    · rw [if_pos hu, if_pos hu]
    · rw [if_neg hu, if_neg hu]
      rfl

/-- C8, witness: the theorem at two concrete value-distinct,
presence-equal inputs. -/
theorem C8_sql_presence_only_witness :
    (Pg.getAllProductsSql c8f1).1 = (Pg.getAllProductsSql c8f2).1 ∧
    (Pg.updateProductSql 1 c8b1).map Prod.fst = (Pg.updateProductSql 2 c8b2).map Prod.fst :=
  C8_sql_presence_only c8f1 c8f2 1 2 c8b1 c8b2 (by decide) (by decide)

/-- The error envelope is well formed for every message. -/
theorem isErrEnvelope_errJson (msg : String) : isErrEnvelope (some (errJson msg)) = true := rfl

/-- Every 4xx response of the persisted POST handler is an error envelope. -/
theorem pg_post_err (st : Pg.DbState) (rb : RawBody) :
    400 ≤ (Pg.postProduct st rb).1.status →
    isErrEnvelope (Pg.postProduct st rb).1.body = true := by
  unfold Pg.postProduct
  split
  · exact fun _ => isErrEnvelope_errJson _
  · split
    · exact fun _ => isErrEnvelope_errJson _
    · split
      · exact fun _ => isErrEnvelope_errJson _
      · split
        · intro h; simp at h
        · exact fun _ => isErrEnvelope_errJson _

/-- Every 4xx response of the persisted PUT handler is an error envelope. -/
theorem pg_put_err (st : Pg.DbState) (id : Nat) (rb : RawBody) :
    400 ≤ (Pg.putProduct st id rb).1.status →
    isErrEnvelope (Pg.putProduct st id rb).1.body = true := by
  unfold Pg.putProduct
  split
  · exact fun _ => isErrEnvelope_errJson _
  · split
    · exact fun _ => isErrEnvelope_errJson _
    · split
      · exact fun _ => isErrEnvelope_errJson _
      · intro h; simp at h
      · exact fun _ => isErrEnvelope_errJson _

/-- Every 4xx response of the persisted DELETE handler is an error envelope. -/
theorem pg_delete_err (st : Pg.DbState) (id : Nat) :
    400 ≤ (Pg.deleteProductRoute st id).1.status →
    isErrEnvelope (Pg.deleteProductRoute st id).1.body = true := by
  unfold Pg.deleteProductRoute
  split
  · exact fun _ => isErrEnvelope_errJson _
  · intro h; simp at h

/-- Every 4xx response of the in-memory POST handler is an error envelope. -/
theorem mem_post_err (st : Mem.MemState) (rb : RawBody) :
    400 ≤ (Mem.postRoute st rb).1.status →
    isErrEnvelope (Mem.postRoute st rb).1.body = true := by
  unfold Mem.postRoute
  split
  · exact fun _ => isErrEnvelope_errJson _
  · split
    · exact fun _ => isErrEnvelope_errJson _
    · intro h; simp at h

/-- C9, amended: every error (status >= 400) response of either variant
is either a well-formed \x7bsuccess: false, error: string\x7d envelope or the
fallback route-not-found body — and the latter, produced exactly by the
unmatched-route branch, names the path and method but carries no
`success` field (see the counterexample), so the claimed uniform envelope
shape fails exactly there. -/
theorem C9_error_envelope (st : Pg.DbState) (mst : Mem.MemState) (m : Method)
    (path : String) (q : Filters) (rb : RawBody) :
    (400 ≤ (Pg.handle st m path q rb).1.status →
       isErrEnvelope (Pg.handle st m path q rb).1.body = true ∨
       (Pg.handle st m path q rb).1.body = some (routeNotFoundJson path m))
  ∧ (400 ≤ (Mem.handle mst m path q rb).1.status →
       isErrEnvelope (Mem.handle mst m path q rb).1.body = true ∨
       (Mem.handle mst m path q rb).1.body = some (routeNotFoundJson path m)) := by
  constructor
  · unfold Pg.handle
    split
    · intro h; simp at h
    · split
      · intro h; simp at h
      · split
        · intro h; simp at h
        · split
          · intro h; simp at h
          · split
            · split
              · exact fun _ => Or.inl (isErrEnvelope_errJson _)
              · intro h; simp at h
            · split
              · exact fun h => Or.inl (pg_post_err st rb h)
              · split
                · exact fun h => Or.inl (pg_put_err st _ rb h)
                · exact fun h => Or.inl (pg_delete_err st _ h)
                · exact fun _ => Or.inr rfl
  · unfold Mem.handle
    split
    · intro h; simp at h
    · split
      · intro h; simp at h
      · split
        · intro h; simp at h
        · split
          · split
            · exact fun _ => Or.inl (isErrEnvelope_errJson _)
            · intro h; simp at h
          · split
            · exact fun h => Or.inl (mem_post_err mst rb h)
            · exact fun _ => Or.inr rfl

/-- C9, counterexample.  The claim asserts the not-found envelope for an
unmatched route has shape \x7bsuccess: false, error: string\x7d.  The fallback
branch serializes \x7berror, path, method\x7d with no `success` field, so the
envelope predicate evaluates to false on it. -/
theorem C9_counterexample :
    400 ≤ (Pg.handle pgSt1 Method.GET "/api/unknown" {} RawBody.empty).1.status ∧
    isErrEnvelope (Pg.handle pgSt1 Method.GET "/api/unknown" {} RawBody.empty).1.body = false ∧
    (Pg.handle pgSt1 Method.GET "/api/unknown" {} RawBody.empty).1.body =
      some (routeNotFoundJson "/api/unknown" Method.GET) :=
  ⟨by decide, rfl, rfl⟩

/-- C9, witness: the amended theorem applied to a concrete unmatched
request. -/
theorem C9_error_envelope_witness :
    isErrEnvelope (Pg.handle pgSt1 Method.GET "/api/unknown" {} RawBody.empty).1.body = true ∨
    (Pg.handle pgSt1 Method.GET "/api/unknown" {} RawBody.empty).1.body =
      some (routeNotFoundJson "/api/unknown" Method.GET) :=
  (C9_error_envelope pgSt1 memSt1 Method.GET "/api/unknown" {} RawBody.empty).1 (by decide)

/-- C10, counterexample.  The claim asserts that an empty-bodied PUT gets
the empty-update-set validation failure in both variants.  The in-memory
variant has no PUT route at all: an empty-bodied PUT to a product path
falls through to the route-not-found fallback (status 404), not to any
validation failure. -/
theorem C10_counterexample :
    (Mem.handle memSt1 Method.PUT "/api/products/1" {} RawBody.empty).1 =
      { status := 404, body := some (routeNotFoundJson "/api/products/1" Method.PUT) } ∧
    isErrEnvelope (some (routeNotFoundJson "/api/products/1" Method.PUT)) = false :=
  ⟨rfl, rfl⟩

/-- C10, amended: an empty request body parses to the empty object (the
parser special-cases the empty string), so an empty-bodied POST yields
the missing-required-fields failure in both variants, and an
empty-bodied PUT yields the empty-update-set failure in the persisted
variant — never the "Invalid JSON" response; the in-memory variant has no
PUT route (an empty-bodied PUT there hits the route-not-found fallback,
see the counterexample). -/
theorem C10_empty_body (st : Pg.DbState) (mst : Mem.MemState) (q : Filters)
    (id : Nat) :
    Pg.handle st Method.POST "/api/products" q RawBody.empty =
      ({ status := 400, body := some (errJson "Name, price, and category are required") }, st)
  ∧ Mem.handle mst Method.POST "/api/products" q RawBody.empty =
      ({ status := 400, body := some (errJson "Name, price, and category are required") }, mst)
  ∧ Pg.putProduct st id RawBody.empty =
      ({ status := 400, body := some (errJson "No fields to update") }, st) := by
  refine ⟨?_, ?_, ?_⟩ <;> rfl
